import Mathlib

/-!
Shallow embedding of `src/eCommerce.cpp` (an e-commerce checkout system).

Modelling conventions:
* C++ `double` values (prices, weights, balances) are embedded as `ℚ`;
  every arithmetic operation the program performs on them (addition and
  multiplication) is exact, so no rounding behaviour is lost.
* C++ `int` quantities are embedded as `ℤ` (no overflow arises in the
  reachable states of the program, and signed overflow is undefined behaviour
  in C++ anyway).
* `shared_ptr<Product>` aliasing is made explicit with a store mapping
  `ProductId` to the current `Product` value; a `CartItem` holds a
  `ProductId`, so duplicate cart entries alias the same mutable product,
  exactly as two copies of one `shared_ptr` do.
* A C++ `throw` is an `Except.error` carrying the exception message.
  Functions that mutate state through references return the final state
  alongside the error, because a C++ exception does not roll back
  mutations already performed (relevant in `CheckoutService::checkout`,
  whose commit loop can throw halfway through).
* The class hierarchy is a closed tagged family `ProductData`.  Crucially,
  only `ShippableProduct` inherits the C++ `Shippable` interface;
  `ExpirableProduct` overrides `isShippable()` to `true` but does not
  inherit `Shippable`, so `dynamic_pointer_cast<Shippable>` yields null
  for it.  `Product.shippableView` models that cast.
* Console output is modelled as data: the shipment notice as the list of
  printed lines (strings, newlines elided), the receipt structurally.
-/

namespace ECommerce

/-- Identity of a heap-allocated `Product` (models `shared_ptr` aliasing). -/
abbrev ProductId := Nat

/-- The closed family of product variants: `ExpirableProduct` (carries an
expiry date, `time_t` embedded as `ℤ`), `ShippableProduct` (carries a
weight in kg), `DigitalProduct` (no extra data). -/
inductive ProductData where
  | expirable (expiryDate : Int)
  | shippableProd (weight : ℚ)
  | digital
deriving DecidableEq, Repr

/-- The state of one `Product` object: `name`, `price`, `quantity` (stock),
plus the variant tag (`eCommerce.cpp`, classes `Product`,
`ExpirableProduct`, `ShippableProduct`, `DigitalProduct`). -/
structure Product where
  name : String
  price : ℚ
  quantity : Int
  data : ProductData
deriving DecidableEq, Repr

/-- `Product::isExpired` (virtual): `ExpirableProduct` compares the clock
`now` against its expiry date; the other variants return `false`. -/
def Product.isExpired (p : Product) (now : Int) : Bool :=
  match p.data with
  | .expirable d => now > d
  | .shippableProd _ => false
  | .digital => false

/-- `Product::isShippable` (virtual): `true` for `ExpirableProduct` and
`ShippableProduct`, `false` for `DigitalProduct`. -/
def Product.isShippable (p : Product) : Bool :=
  match p.data with
  | .expirable _ => true
  | .shippableProd _ => true
  | .digital => false

/-- The `Shippable` interface surface: `getName()` and `getWeight()`. -/
structure ShippableView where
  name : String
  weight : ℚ
deriving DecidableEq, Repr

/-- `dynamic_pointer_cast<Shippable>(product)`: succeeds exactly for
`ShippableProduct`, the only class inheriting `Shippable`;
`ExpirableProduct` is NOT `Shippable` (it has no weight), so the cast
yields null (`none`) for it even though `isShippable()` is `true`. -/
def Product.shippableView (p : Product) : Option ShippableView :=
  match p.data with
  | .shippableProd w => some ⟨p.name, w⟩
  | .expirable _ => none
  | .digital => none

/-- `Product::reduceQuantity(amount)`: throws `"Not enough stock."` when
`amount > quantity`, otherwise decrements `quantity` by `amount`. -/
def Product.reduceQuantity (p : Product) (amount : Int) : Except String Product :=
  if amount > p.quantity then .error "Not enough stock."
  else .ok { p with quantity := p.quantity - amount }

/-- The catalog heap: current product value at each identity. -/
def Store := ProductId → Product

/-- Writing one product back through its pointer. -/
def updateStore (s : Store) (pid : ProductId) (p : Product) : Store :=
  fun j => if j = pid then p else s j

/-- `CartItem`: a `shared_ptr<Product>` (as a `ProductId`) plus a quantity. -/
structure CartItem where
  productId : ProductId
  quantity : Int
deriving DecidableEq, Repr

/-- `CartItem::getTotalPrice`: current price times quantity, read through
the pointer. -/
def CartItem.getTotalPrice (s : Store) (it : CartItem) : ℚ :=
  (s it.productId).price * it.quantity

/-- `Cart`: the ordered `vector<CartItem>`. -/
structure Cart where
  items : List CartItem
deriving DecidableEq, Repr

/-- `Cart::addToCart(product, quantity)`: throws `"Insufficient stock."`
when the current stock of the product is below `quantity`, otherwise appends
`{product, quantity}` at the end of the item vector.  It never writes to
the store (the product is only read), and it performs no coalescing and
no lower-bound check on `quantity`. -/
def Cart.addToCart (s : Store) (c : Cart) (pid : ProductId) (qty : Int) :
    Except String Cart :=
  if (s pid).quantity < qty then .error "Insufficient stock."
  else .ok ⟨c.items ++ [⟨pid, qty⟩]⟩

/-- `Cart::isEmpty`. -/
def Cart.isEmpty (c : Cart) : Bool :=
  c.items.isEmpty

/-- `Cart::calculateSubtotal`: the accumulation loop over all items. -/
def Cart.calculateSubtotal (s : Store) (c : Cart) : ℚ :=
  c.items.foldl (fun sum it => sum + it.getTotalPrice s) 0

/-- `Cart::calculateShippingFee`: for each item, attempt the cast to
`Shippable`; on success add `weight × quantity × 10.0`, otherwise add
nothing. -/
def Cart.calculateShippingFee (s : Store) (c : Cart) : ℚ :=
  c.items.foldl
    (fun fee it =>
      match (s it.productId).shippableView with
      | some sh => fee + sh.weight * it.quantity * 10
      | none => fee)
    0

/-- `Cart::getShippableItems`: the accumulation loop building the ordered
list of `(Shippable view, quantity)` pairs for the items whose product
casts to `Shippable`. -/
def Cart.getShippableItems (s : Store) (c : Cart) :
    List (ShippableView × Int) :=
  c.items.foldl
    (fun res it =>
      match (s it.productId).shippableView with
      | some sh => res ++ [(sh, it.quantity)]
      | none => res)
    []

/-- `Customer`: a name and a prepaid balance. -/
structure Customer where
  name : String
  balance : ℚ
deriving DecidableEq, Repr

/-- `Customer::deductBalance(amount)`: throws `"Insufficient balance."`
when `balance < amount`, otherwise subtracts `amount`. -/
def Customer.deductBalance (cust : Customer) (amount : ℚ) :
    Except String Customer :=
  if cust.balance < amount then .error "Insufficient balance."
  else .ok { cust with balance := cust.balance - amount }

/-- Fixed-point decimal rendering with `digits` fractional digits, as
`std::fixed` + `setprecision(digits)` renders the nonnegative values this
program prints (rounding to nearest, halves up). -/
def formatFixed (digits : Nat) (q : ℚ) : String :=
  let base : Int := (10 : Int) ^ digits
  let scaled : Int := (q * (base : ℚ) + 1 / 2).floor
  let ip := scaled / base
  let fp := (scaled % base).natAbs
  if digits = 0 then toString ip
  else
    let fs := toString fp
    toString ip ++ "." ++ String.mk (List.replicate (digits - fs.length) '0') ++ fs

/-- The running total-weight accumulation inside `ShippingService::ship`. -/
def manifestWeight (manifest : List (ShippableView × Int)) : ℚ :=
  manifest.foldl (fun w e => w + e.1.weight * e.2) 0

/-- `ShippingService::ship(items)`: prints the header, one line per
manifest entry (`"<qty>x <name>\t<grams>g"`, grams with zero fractional
digits), then the total-weight line (one fractional digit).  No check of
any kind is performed on the input. -/
def ShippingService.ship (manifest : List (ShippableView × Int)) : List String :=
  "** Shipment notice **" ::
    manifest.map
      (fun e =>
        toString e.2 ++ "x " ++ e.1.name ++ "\t" ++
          formatFixed 0 (e.1.weight * e.2 * 1000) ++ "g")
  ++ ["Total package weight " ++ formatFixed 1 (manifestWeight manifest) ++ "kg"]

/-- One printed line of the checkout receipt. -/
structure ReceiptLine where
  quantity : Int
  name : String
  lineTotal : ℚ
deriving DecidableEq, Repr

/-- The checkout receipt, structurally (monetary rendering elided, as the
spec mandates numeric rather than lexical comparison for currency). -/
structure Receipt where
  lines : List ReceiptLine
  subtotal : ℚ
  shippingFee : ℚ
  amount : ℚ
deriving DecidableEq, Repr

/-- Everything a successful checkout prints: the shipment notice (absent
when `ShippingService::ship` was not invoked) and the receipt. -/
structure CheckoutOutput where
  shipmentNotice : Option (List String)
  receipt : Receipt
deriving DecidableEq, Repr

/-- Result of `CheckoutService::checkout`: the thrown message or the
printed output, together with the final catalog store and customer —
mutations performed before a throw are NOT rolled back. -/
structure CheckoutResult where
  result : Except String CheckoutOutput
  store : Store
  customer : Customer

/-- The validation loop of `CheckoutService::checkout` (lines 174–179):
first failing item wins; for each item expiry is checked before stock. -/
def validateItems (now : Int) (s : Store) : List CartItem → Option String
  | [] => none
  | it :: rest =>
    let p := s it.productId
    if p.isExpired now then some (p.name ++ " is expired.")
    else if p.quantity < it.quantity then some (p.name ++ " is out of stock.")
    else validateItems now s rest

/-- The commit loop of `CheckoutService::checkout` (lines 188–189): call
`reduceQuantity` on the product of each item in order; a throw stops the loop
and keeps the mutations already made. -/
def reduceAll : Store → List CartItem → Store × Option String
  | s, [] => (s, none)
  | s, it :: rest =>
    match (s it.productId).reduceQuantity it.quantity with
    | .error e => (s, some e)
    | .ok p => reduceAll (updateStore s it.productId p) rest

/-- `CheckoutService::checkout(customer, cart)`: empty check, per-item
validation, pricing, affordability check, commit (stock then balance),
shipment emission when the manifest is non-empty, receipt emission.
The manifest and receipt lines are read after the stock mutation, as in
the C++ (which only affects quantities, not names, prices or weights). -/
def CheckoutService.checkout (now : Int) (s : Store) (cust : Customer)
    (cart : Cart) : CheckoutResult :=
  if cart.isEmpty then ⟨.error "Cart is empty.", s, cust⟩
  else
    match validateItems now s cart.items with
    | some e => ⟨.error e, s, cust⟩
    | none =>
      let subtotal := cart.calculateSubtotal s
      let fee := cart.calculateShippingFee s
      let total := subtotal + fee
      if cust.balance < total then
        ⟨.error "Insufficient customer balance.", s, cust⟩
      else
        match reduceAll s cart.items with
        | (s2, some e) => ⟨.error e, s2, cust⟩
        | (s2, none) =>
          match cust.deductBalance total with
          | .error e => ⟨.error e, s2, cust⟩
          | .ok cust2 =>
            let manifest := cart.getShippableItems s2
            let notice :=
              if manifest.isEmpty then none
              else some (ShippingService.ship manifest)
            let lines := cart.items.map
              (fun it => ReceiptLine.mk it.quantity (s2 it.productId).name
                (it.getTotalPrice s2))
            ⟨.ok ⟨notice, ⟨lines, subtotal, fee, total⟩⟩, s2, cust2⟩

/-- Specification-level reading of the contribution of one item to the
shipping fee loop: the weight-based charge when the product casts to
`Shippable`, zero otherwise. -/
def shipContrib (s : Store) (it : CartItem) : ℚ :=
  match (s it.productId).shippableView with
  | some sh => sh.weight * it.quantity * 10
  | none => 0

/-- Specification-level reading of the manifest entry of one item: the
`(Shippable view, quantity)` pair when the product casts to `Shippable`. -/
def manifestEntry (s : Store) (it : CartItem) : Option (ShippableView × Int) :=
  ((s it.productId).shippableView).map (fun sh => (sh, it.quantity))

/-- Total quantity requested for the product `pid` across all cart items
(duplicate entries for one product accumulate). -/
def cartQty (pid : ProductId) (items : List CartItem) : Int :=
  (items.map (fun it => if it.productId = pid then it.quantity else 0)).sum

instance {ε α : Type} [DecidableEq ε] [DecidableEq α] :
    DecidableEq (Except ε α) := fun a b =>
  match a, b with
  | .error x, .error y =>
    if h : x = y then .isTrue (by rw [h]) else .isFalse (by simp [h])
  | .ok x, .ok y =>
    if h : x = y then .isTrue (by rw [h]) else .isFalse (by simp [h])
  | .error _, .ok _ => .isFalse (by simp)
  | .ok _, .error _ => .isFalse (by simp)

/-- Sample `ShippableProduct` (the `Cheese` of `main`, with stock 3). -/
def cheese1 : Product := ⟨"Cheese", 100, 3, .shippableProd 1⟩

/-- Catalog holding `cheese1` at every identity (only id 0 is used). -/
def storeCheese : Store := fun _ => cheese1

/-- A cart holding the SAME product twice (two aliased `shared_ptr`
copies), 2 + 2 units against a stock of 3. -/
def cartDupCheese : Cart := ⟨[⟨0, 2⟩, ⟨0, 2⟩]⟩

/-- A customer whose balance covers any total arising in the samples. -/
def richCustomer : Customer := ⟨"Kerolos", 10000⟩

/-- Sample `ExpirableProduct` (a perishable good, expiry instant 100). -/
def milk : Product := ⟨"Milk", 20, 10, .expirable 100⟩

/-- Catalog holding `milk` at every identity. -/
def storeMilk : Store := fun _ => milk

/-- A one-line cart with two units of the perishable product. -/
def cartMilk : Cart := ⟨[⟨0, 2⟩]⟩

/-- Sample `DigitalProduct` (the `Scratch Card` of `main`). -/
def scratchCard : Product := ⟨"Scratch Card", 50, 100, .digital⟩

/-- Catalog holding `scratchCard` at every identity. -/
def storeDigital : Store := fun _ => scratchCard

/-- A digital-only cart: three units of the scratch card. -/
def cartDigital : Cart := ⟨[⟨0, 3⟩]⟩

/-- The output of the successful digital-only checkout of `cartDigital`. -/
def outDigital : CheckoutOutput :=
  ⟨none, ⟨[⟨3, "Scratch Card", 150⟩], 150, 0, 150⟩⟩

/-- A cheap digital product with stock 5, for the duplicate-entry
conservation counterexample. -/
def cheapDigital : Product := ⟨"Scratch Card", 2, 5, .digital⟩

/-- Catalog holding `cheapDigital` at every identity. -/
def storeCheap : Store := fun _ => cheapDigital

/-- A cart holding the same cheap digital product twice, one unit each. -/
def cartDupCheap : Cart := ⟨[⟨0, 1⟩, ⟨0, 1⟩]⟩

/-- The output of the successful checkout of `cartDupCheap`. -/
def outDupCheap : CheckoutOutput :=
  ⟨none, ⟨[⟨1, "Scratch Card", 2⟩, ⟨1, "Scratch Card", 2⟩], 4, 0, 4⟩⟩

/-- Sample `ShippableProduct` with stock 5 (the `Biscuits` of `main`). -/
def biscuits : Product := ⟨"Biscuits", 150, 5, .shippableProd (7 / 10)⟩

/-- A customer who cannot afford the price of the digital product. -/
def poorCustomer : Customer := ⟨"Kerolos", 20⟩

end ECommerce

namespace ECommerce

theorem foldl_fee_eq (s : Store) :
    ∀ (items : List CartItem) (a : ℚ),
      items.foldl
        (fun fee it =>
          match (s it.productId).shippableView with
          | some sh => fee + sh.weight * it.quantity * 10
          | none => fee) a
        = a + (items.map (shipContrib s)).sum := by
  intro items
  induction items with
  | nil => intro a; simp
  | cons it rest ih =>
    intro a
    simp only [List.foldl_cons, List.map_cons, List.sum_cons, shipContrib]
    cases hv : (s it.productId).shippableView with
    | none => rw [ih]; ring_nf
    | some sh => rw [ih]; ring_nf

theorem calculateShippingFee_eq (s : Store) (c : Cart) :
    c.calculateShippingFee s = (c.items.map (shipContrib s)).sum := by
  unfold Cart.calculateShippingFee
  rw [foldl_fee_eq]
  simp

theorem foldl_manifest_eq (s : Store) :
    ∀ (items : List CartItem) (acc : List (ShippableView × Int)),
      items.foldl
        (fun res it =>
          match (s it.productId).shippableView with
          | some sh => res ++ [(sh, it.quantity)]
          | none => res) acc
        = acc ++ items.filterMap (manifestEntry s) := by
  intro items
  induction items with
  | nil => intro acc; simp
  | cons it rest ih =>
    intro acc
    simp only [List.foldl_cons, List.filterMap_cons, manifestEntry]
    cases hv : (s it.productId).shippableView with
    | none => rw [ih]; simp
    | some sh => rw [ih]; simp

theorem getShippableItems_eq (s : Store) (c : Cart) :
    c.getShippableItems s = c.items.filterMap (manifestEntry s) := by
  unfold Cart.getShippableItems
  rw [foldl_manifest_eq]
  simp

theorem foldl_subtotal_eq (s : Store) :
    ∀ (items : List CartItem) (a : ℚ),
      items.foldl (fun sum it => sum + it.getTotalPrice s) a
        = a + (items.map (fun it => it.getTotalPrice s)).sum := by
  intro items
  induction items with
  | nil => intro a; simp
  | cons it rest ih =>
    intro a
    simp only [List.foldl_cons, List.map_cons, List.sum_cons]
    rw [ih]; ring_nf

theorem calculateSubtotal_eq (s : Store) (c : Cart) :
    c.calculateSubtotal s = (c.items.map (fun it => it.getTotalPrice s)).sum := by
  unfold Cart.calculateSubtotal
  rw [foldl_subtotal_eq]
  simp

end ECommerce

namespace ECommerce

theorem isEmpty_false_of_ne (c : Cart) (h : c.items ≠ []) : c.isEmpty = false := by
  unfold Cart.isEmpty
  cases hi : c.items with
  | nil => exact absurd hi h
  | cons a l => rfl

theorem validateItems_append_valid (now : Int) (s : Store) :
    ∀ (pre rest : List CartItem),
      (∀ it ∈ pre, (s it.productId).isExpired now = false ∧
        it.quantity ≤ (s it.productId).quantity) →
      validateItems now s (pre ++ rest) = validateItems now s rest := by
  intro pre
  induction pre with
  | nil => intro rest _; rfl
  | cons it pre ih =>
    intro rest h
    obtain ⟨h1, h2⟩ := h it (by simp)
    simp only [List.cons_append, validateItems, h1]
    rw [if_neg (by omega : ¬ (s it.productId).quantity < it.quantity)]
    simp only [Bool.false_eq_true, if_false]
    exact ih rest (fun x hx => h x (by simp [hx]))

theorem validateItems_none_of_valid (now : Int) (s : Store) (items : List CartItem)
    (h : ∀ it ∈ items, (s it.productId).isExpired now = false ∧
      it.quantity ≤ (s it.productId).quantity) :
    validateItems now s items = none := by
  have := validateItems_append_valid now s items [] h
  rwa [List.append_nil] at this

theorem view_none_of_not_shippable :
    ∀ (p : Product), p.isShippable = false → p.shippableView = none
  | ⟨_, _, _, .expirable _⟩, h => by simp [Product.isShippable] at h
  | ⟨_, _, _, .shippableProd _⟩, h => by simp [Product.isShippable] at h
  | ⟨_, _, _, .digital⟩, _ => rfl

theorem shippableView_congr (p q : Product) (hn : p.name = q.name)
    (hd : p.data = q.data) : p.shippableView = q.shippableView := by
  obtain ⟨n1, p1, q1, d1⟩ := p
  obtain ⟨n2, p2, q2, d2⟩ := q
  dsimp only at hn hd
  subst hn
  subst hd
  cases d1 <;> rfl

theorem reduceAll_preserve (items : List CartItem) :
    ∀ (s : Store) (pid : ProductId),
      ((reduceAll s items).1 pid).name = (s pid).name
      ∧ ((reduceAll s items).1 pid).price = (s pid).price
      ∧ ((reduceAll s items).1 pid).data = (s pid).data := by
  induction items with
  | nil => intro s pid; exact ⟨rfl, rfl, rfl⟩
  | cons it rest ih =>
    intro s pid
    unfold reduceAll
    cases hr : (s it.productId).reduceQuantity it.quantity with
    | error e => exact ⟨rfl, rfl, rfl⟩
    | ok p =>
      have hp : p.name = (s it.productId).name ∧ p.price = (s it.productId).price
          ∧ p.data = (s it.productId).data := by
        unfold Product.reduceQuantity at hr
        split at hr
        · exact absurd hr (by simp)
        · cases hr; exact ⟨rfl, rfl, rfl⟩
      have hu : ∀ j, (updateStore s it.productId p j).name = (s j).name
          ∧ (updateStore s it.productId p j).price = (s j).price
          ∧ (updateStore s it.productId p j).data = (s j).data := by
        intro j
        unfold updateStore
        by_cases hj : j = it.productId
        · rw [if_pos hj, hj]; exact hp
        · rw [if_neg hj]; exact ⟨rfl, rfl, rfl⟩
      obtain ⟨a1, a2, a3⟩ := ih (updateStore s it.productId p) pid
      obtain ⟨b1, b2, b3⟩ := hu pid
      exact ⟨a1.trans b1, a2.trans b2, a3.trans b3⟩

theorem cartQty_cons (pid : ProductId) (it : CartItem) (rest : List CartItem) :
    cartQty pid (it :: rest)
      = (if it.productId = pid then it.quantity else 0) + cartQty pid rest := by
  simp [cartQty]

theorem reduceAll_cons_ok (s : Store) (it : CartItem) (rest : List CartItem)
    (p : Product) (hr : (s it.productId).reduceQuantity it.quantity = .ok p) :
    reduceAll s (it :: rest) = reduceAll (updateStore s it.productId p) rest := by
  conv_lhs => unfold reduceAll
  rw [hr]

theorem reduceAll_cons_err (s : Store) (it : CartItem) (rest : List CartItem)
    (e : String) (hr : (s it.productId).reduceQuantity it.quantity = .error e) :
    reduceAll s (it :: rest) = (s, some e) := by
  conv_lhs => unfold reduceAll
  rw [hr]

theorem reduceAll_ok_quantity (items : List CartItem) :
    ∀ (s : Store), (reduceAll s items).2 = none →
      ∀ pid, ((reduceAll s items).1 pid).quantity
        = (s pid).quantity - cartQty pid items := by
  induction items with
  | nil => intro s _ pid; simp [reduceAll, cartQty]
  | cons it rest ih =>
    intro s h pid
    rw [cartQty_cons]
    cases hr : (s it.productId).reduceQuantity it.quantity with
    | error e =>
      rw [reduceAll_cons_err s it rest e hr] at h
      simp at h
    | ok p =>
      rw [reduceAll_cons_ok s it rest p hr] at h ⊢
      have hq : p.quantity = (s it.productId).quantity - it.quantity := by
        unfold Product.reduceQuantity at hr
        split at hr
        · exact absurd hr (by simp)
        · cases hr; rfl
      rw [ih (updateStore s it.productId p) h pid]
      unfold updateStore
      by_cases hj : pid = it.productId
      · subst hj
        simp
        omega
      · rw [if_neg hj, if_neg (fun hc => hj hc.symm)]
        omega

end ECommerce

namespace ECommerce

theorem checkout_empty_eq (now : Int) (s : Store) (cust : Customer) (cart : Cart)
    (h : cart.items = []) :
    CheckoutService.checkout now s cust cart = ⟨.error "Cart is empty.", s, cust⟩ := by
  have hE : cart.isEmpty = true := by simp [Cart.isEmpty, h]
  simp [CheckoutService.checkout, hE]

theorem checkout_invalid_eq (now : Int) (s : Store) (cust : Customer) (cart : Cart)
    (e : String) (hne : cart.items ≠ [])
    (hv : validateItems now s cart.items = some e) :
    CheckoutService.checkout now s cust cart = ⟨.error e, s, cust⟩ := by
  have hE : cart.isEmpty = false := isEmpty_false_of_ne cart hne
  simp [CheckoutService.checkout, hE, hv]

theorem checkout_poor_eq (now : Int) (s : Store) (cust : Customer) (cart : Cart)
    (hne : cart.items ≠ [])
    (hv : validateItems now s cart.items = none)
    (hb : cust.balance < cart.calculateSubtotal s + cart.calculateShippingFee s) :
    CheckoutService.checkout now s cust cart
      = ⟨.error "Insufficient customer balance.", s, cust⟩ := by
  have hE : cart.isEmpty = false := isEmpty_false_of_ne cart hne
  simp [CheckoutService.checkout, hE, hv, hb]

theorem checkout_commit_err_eq (now : Int) (s : Store) (cust : Customer)
    (cart : Cart) (s2 : Store) (e : String) (hne : cart.items ≠ [])
    (hv : validateItems now s cart.items = none)
    (hb : ¬ cust.balance < cart.calculateSubtotal s + cart.calculateShippingFee s)
    (hr : reduceAll s cart.items = (s2, some e)) :
    CheckoutService.checkout now s cust cart = ⟨.error e, s2, cust⟩ := by
  have hE : cart.isEmpty = false := isEmpty_false_of_ne cart hne
  simp [CheckoutService.checkout, hE, hv, hb, hr]

theorem checkout_commit_ok_eq (now : Int) (s : Store) (cust : Customer)
    (cart : Cart) (s2 : Store) (hne : cart.items ≠ [])
    (hv : validateItems now s cart.items = none)
    (hb : ¬ cust.balance < cart.calculateSubtotal s + cart.calculateShippingFee s)
    (hr : reduceAll s cart.items = (s2, none)) :
    CheckoutService.checkout now s cust cart
      = ⟨.ok ⟨(if (cart.getShippableItems s2).isEmpty then none
              else some (ShippingService.ship (cart.getShippableItems s2))),
             ⟨cart.items.map (fun it =>
                ReceiptLine.mk it.quantity (s2 it.productId).name
                  (it.getTotalPrice s2)),
              cart.calculateSubtotal s, cart.calculateShippingFee s,
              cart.calculateSubtotal s + cart.calculateShippingFee s⟩⟩,
         s2,
         ⟨cust.name, cust.balance
            - (cart.calculateSubtotal s + cart.calculateShippingFee s)⟩⟩ := by
  have hE : cart.isEmpty = false := isEmpty_false_of_ne cart hne
  have hd : cust.deductBalance
      (cart.calculateSubtotal s + cart.calculateShippingFee s)
      = .ok ⟨cust.name, cust.balance
          - (cart.calculateSubtotal s + cart.calculateShippingFee s)⟩ := by
    simp [Customer.deductBalance, hb]
  simp [CheckoutService.checkout, hE, hv, hb, hr, hd]

theorem checkout_ok_spec (now : Int) (s : Store) (cust : Customer) (cart : Cart)
    (out : CheckoutOutput)
    (h : (CheckoutService.checkout now s cust cart).result = .ok out) :
    (reduceAll s cart.items).2 = none
    ∧ (CheckoutService.checkout now s cust cart).store = (reduceAll s cart.items).1
    ∧ (CheckoutService.checkout now s cust cart).customer.balance
        = cust.balance - (cart.calculateSubtotal s + cart.calculateShippingFee s)
    ∧ out.receipt.shippingFee = cart.calculateShippingFee s
    ∧ out.shipmentNotice
        = (if (cart.getShippableItems (reduceAll s cart.items).1).isEmpty then none
           else some (ShippingService.ship
              (cart.getShippableItems (reduceAll s cart.items).1))) := by
  by_cases hi : cart.items = []
  · rw [checkout_empty_eq now s cust cart hi] at h
    simp at h
  · have hne : cart.items ≠ [] := hi
    cases hv : validateItems now s cart.items with
    | some e =>
      rw [checkout_invalid_eq now s cust cart e hne hv] at h
      simp at h
    | none =>
      by_cases hb : cust.balance
          < cart.calculateSubtotal s + cart.calculateShippingFee s
      · rw [checkout_poor_eq now s cust cart hne hv hb] at h
        simp at h
      · rcases hrr : reduceAll s cart.items with ⟨s2, err⟩
        cases err with
        | some e =>
          rw [checkout_commit_err_eq now s cust cart s2 e hne hv hb hrr] at h
          simp at h
        | none =>
          rw [checkout_commit_ok_eq now s cust cart s2 hne hv hb hrr] at h
          rw [checkout_commit_ok_eq now s cust cart s2 hne hv hb hrr]
          simp only [Except.ok.injEq] at h
          subst h
          exact ⟨rfl, rfl, rfl, rfl, rfl⟩


/-- Claim C1 (code bug evidence): checkout is NOT atomic on failure.  With
a cart holding the SAME product twice (stock 3, quantities 2 + 2), each
per-item validation passes (2 ≤ 3), the commit loop reduces the stock to
1, then throws `"Not enough stock."` on the second entry — so this
checkout fails yet the stock of the product has changed from 3 to 1,
contradicting the claim that a failing checkout leaves the stock of
every product unchanged. -/
theorem checkout_duplicate_commit_partial_mutation :
    (CheckoutService.checkout 0 storeCheese richCustomer cartDupCheese).result
      = .error "Not enough stock."
    ∧ ((CheckoutService.checkout 0 storeCheese richCustomer cartDupCheese).store 0).quantity = 1
    ∧ (storeCheese 0).quantity = 3
    ∧ (CheckoutService.checkout 0 storeCheese richCustomer cartDupCheese).customer.balance
        = richCustomer.balance := by
  have hne : cartDupCheese.items ≠ [] := by decide
  have hv : validateItems 0 storeCheese cartDupCheese.items = none := by decide
  have hb : ¬ richCustomer.balance
      < Cart.calculateSubtotal storeCheese cartDupCheese
        + Cart.calculateShippingFee storeCheese cartDupCheese := by
    with_unfolding_all decide
  have hr : reduceAll storeCheese cartDupCheese.items
      = (updateStore storeCheese 0 ⟨"Cheese", 100, 1, .shippableProd 1⟩,
         some "Not enough stock.") := rfl
  rw [checkout_commit_err_eq 0 storeCheese richCustomer cartDupCheese _ _
    hne hv hb hr]
  exact ⟨rfl, rfl, rfl, rfl⟩

/-- Claim C2 (counterexample): the fee does NOT select items by
`isShippable()`.  The perishable product `milk` satisfies
`isShippable() = true`, yet `dynamic_pointer_cast<Shippable>` yields null
for it (it exposes no `unitWeightKg` at all), and a cart holding only it
has shipping fee 0 — the item the claim includes in the sum is excluded
by the code. -/
theorem shippingFee_isShippable_selection_cex :
    (storeMilk 0).isShippable = true
    ∧ (storeMilk 0).shippableView = none
    ∧ Cart.calculateShippingFee storeMilk cartMilk = 0 := by
  with_unfolding_all decide

/-- Claim C2 (amended): `calculateShippingFee` returns the sum of
`unitWeightKg × quantity × 10.0` over exactly those cart items whose
product exposes the `Shippable` capability (the entries of the shippable
manifest); perishable and digital items, which do not cast to
`Shippable`, contribute zero. -/
theorem shippingFee_sums_over_shippable_capability (s : Store) (c : Cart) :
    c.calculateShippingFee s
      = ((c.getShippableItems s).map
          (fun e => e.1.weight * (e.2 : ℚ) * 10)).sum := by
  rw [calculateShippingFee_eq, getShippableItems_eq]
  generalize c.items = items
  induction items with
  | nil => rfl
  | cons it rest ih =>
    cases hv : (s it.productId).shippableView with
    | none => simp [shipContrib, manifestEntry, hv, ih]
    | some sh => simp [shipContrib, manifestEntry, hv, ih]

/-- Claim C3 (counterexample): per-item conservation fails when one
product appears in two cart entries.  The checkout of `cartDupCheap`
(same product twice, one unit each, stock 5) succeeds, and the final
stock is 3 — not `5 − 1 = 4` as the claim requires for each item
`(p, 1)`. -/
theorem checkout_duplicate_success_stock_cex :
    (CheckoutService.checkout 0 storeCheap poorCustomer cartDupCheap).result
      = .ok outDupCheap
    ∧ ((CheckoutService.checkout 0 storeCheap poorCustomer cartDupCheap).store 0).quantity = 3
    ∧ ¬ ((CheckoutService.checkout 0 storeCheap poorCustomer cartDupCheap).store 0).quantity
        = (storeCheap 0).quantity - (1 : Int) := by
  refine ⟨by with_unfolding_all decide, by with_unfolding_all decide,
    by with_unfolding_all decide⟩

/-- Claim C3 (amended): after a successful checkout, the stock of each product
has decreased by the TOTAL quantity requested for it across all cart
items (which is the quantity of the item whenever the product occurs in a
single entry), and the balance of the customer has decreased by
`subtotal + shipping`. -/
theorem checkout_success_conservation (now : Int) (s : Store) (cust : Customer)
    (cart : Cart) (out : CheckoutOutput)
    (h : (CheckoutService.checkout now s cust cart).result = .ok out) :
    (∀ pid, ((CheckoutService.checkout now s cust cart).store pid).quantity
        = (s pid).quantity - cartQty pid cart.items)
    ∧ (CheckoutService.checkout now s cust cart).customer.balance
        = cust.balance
          - (cart.calculateSubtotal s + cart.calculateShippingFee s) := by
  obtain ⟨h2, hstore, hbal, -, -⟩ := checkout_ok_spec now s cust cart out h
  refine ⟨?_, hbal⟩
  intro pid
  rw [hstore]
  exact reduceAll_ok_quantity cart.items s h2 pid

/-- Claim C3 witness: the amended conservation law instantiated on the
concrete successful checkout of `cartDupCheap`. -/
theorem checkout_success_conservation_witness :
    ((CheckoutService.checkout 0 storeCheap poorCustomer cartDupCheap).store 0).quantity
      = (storeCheap 0).quantity - cartQty 0 cartDupCheap.items
    ∧ (CheckoutService.checkout 0 storeCheap poorCustomer cartDupCheap).customer.balance
      = poorCustomer.balance
        - (Cart.calculateSubtotal storeCheap cartDupCheap
            + Cart.calculateShippingFee storeCheap cartDupCheap) := by
  have h := checkout_success_conservation 0 storeCheap poorCustomer cartDupCheap
    outDupCheap (by with_unfolding_all decide)
  exact ⟨h.1 0, h.2⟩

/-- Claim C4 (counterexample): the manifest does NOT select items by
`isShippable()`.  The one-item cart holding the perishable `milk`
(`isShippable() = true`, so the claimed subsequence has one entry)
produces an empty manifest, because the cast to `Shippable` fails. -/
theorem manifest_isShippable_selection_cex :
    Cart.getShippableItems storeMilk cartMilk = []
    ∧ cartMilk.items.countP (fun it => (storeMilk it.productId).isShippable) = 1 := by
  with_unfolding_all decide

/-- Claim C4 (amended): `getShippableItems` returns exactly the ordered
subsequence of `(Shippable view, quantity)` pairs for those cart items
whose product exposes the `Shippable` capability (casts to `Shippable`),
in cart insertion order, with duplicate entries kept separate — the
`filterMap` of the item list.  Perishable items, despite
`isShippable() = true`, are excluded. -/
theorem manifest_is_capability_filter (s : Store) (c : Cart) :
    c.getShippableItems s
      = c.items.filterMap
          (fun it => ((s it.productId).shippableView).map
            (fun sh => (sh, it.quantity))) := by
  rw [getShippableItems_eq]
  rfl

/-- Claim C5: the checkout checks run in a fixed order and the first
violated one wins: empty cart (`"Cart is empty."`); then per item in
cart order, expiry (`"<name> is expired."`) before stock
(`"<name> is out of stock."`); then affordability
(`"Insufficient customer balance."`). -/
theorem checkout_check_order (now : Int) (s : Store) (cust : Customer) :
    ((CheckoutService.checkout now s cust ⟨[]⟩).result = .error "Cart is empty.")
    ∧ (∀ (pre post : List CartItem) (it : CartItem),
        (∀ it2 ∈ pre, (s it2.productId).isExpired now = false
          ∧ it2.quantity ≤ (s it2.productId).quantity) →
        (s it.productId).isExpired now = true →
        (CheckoutService.checkout now s cust ⟨pre ++ it :: post⟩).result
          = .error ((s it.productId).name ++ " is expired."))
    ∧ (∀ (pre post : List CartItem) (it : CartItem),
        (∀ it2 ∈ pre, (s it2.productId).isExpired now = false
          ∧ it2.quantity ≤ (s it2.productId).quantity) →
        (s it.productId).isExpired now = false →
        (s it.productId).quantity < it.quantity →
        (CheckoutService.checkout now s cust ⟨pre ++ it :: post⟩).result
          = .error ((s it.productId).name ++ " is out of stock."))
    ∧ (∀ (c : Cart), c.items ≠ [] →
        (∀ it2 ∈ c.items, (s it2.productId).isExpired now = false
          ∧ it2.quantity ≤ (s it2.productId).quantity) →
        cust.balance < c.calculateSubtotal s + c.calculateShippingFee s →
        (CheckoutService.checkout now s cust c).result
          = .error "Insufficient customer balance.") := by
  refine ⟨?_, ?_, ?_, ?_⟩
  · rw [checkout_empty_eq now s cust ⟨[]⟩ rfl]
  · intro pre post it hpre hexp
    have hne : (⟨pre ++ it :: post⟩ : Cart).items ≠ [] := by simp
    have hv : validateItems now s (pre ++ it :: post)
        = some ((s it.productId).name ++ " is expired.") := by
      rw [validateItems_append_valid now s pre (it :: post) hpre]
      simp [validateItems, hexp]
    rw [checkout_invalid_eq now s cust ⟨pre ++ it :: post⟩ _ hne hv]
  · intro pre post it hpre hexp hstock
    have hne : (⟨pre ++ it :: post⟩ : Cart).items ≠ [] := by simp
    have hv : validateItems now s (pre ++ it :: post)
        = some ((s it.productId).name ++ " is out of stock.") := by
      rw [validateItems_append_valid now s pre (it :: post) hpre]
      simp [validateItems, hexp, hstock]
    rw [checkout_invalid_eq now s cust ⟨pre ++ it :: post⟩ _ hne hv]
  · intro c hne hvalid hb
    have hv : validateItems now s c.items = none :=
      validateItems_none_of_valid now s c.items hvalid
    rw [checkout_poor_eq now s cust c hne hv hb]

/-- Claim C5 witness: each failure mode exercised on a concrete input —
an empty cart, a cart with an expired perishable (clock 200, expiry 100),
a cart requesting 20 units against stock 10, and a customer whose
balance 20 cannot cover a 50-unit subtotal. -/
theorem checkout_check_order_witness :
    ((CheckoutService.checkout 0 storeDigital richCustomer ⟨[]⟩).result
      = .error "Cart is empty.")
    ∧ ((CheckoutService.checkout 200 storeMilk richCustomer ⟨[⟨0, 2⟩]⟩).result
      = .error "Milk is expired.")
    ∧ ((CheckoutService.checkout 0 storeMilk richCustomer ⟨[⟨0, 20⟩]⟩).result
      = .error "Milk is out of stock.")
    ∧ ((CheckoutService.checkout 0 storeDigital poorCustomer ⟨[⟨0, 1⟩]⟩).result
      = .error "Insufficient customer balance.") := by
  refine ⟨(checkout_check_order 0 storeDigital richCustomer).1, ?_, ?_, ?_⟩
  · exact (checkout_check_order 200 storeMilk richCustomer).2.1 [] [] ⟨0, 2⟩
      (by simp) (by decide)
  · exact (checkout_check_order 0 storeMilk richCustomer).2.2.1 [] [] ⟨0, 20⟩
      (by simp) (by decide) (by decide)
  · exact (checkout_check_order 0 storeDigital poorCustomer).2.2.2 ⟨[⟨0, 1⟩]⟩
      (by decide) (by decide) (by with_unfolding_all decide)

/-- Claim C6 (counterexample): `reduceQuantity` rejects an over-large
amount with the message `"Not enough stock."`, not the claimed
`"Insufficient stock."` (which is the message of `Cart::addToCart`). -/
theorem reduceQuantity_message_cex :
    biscuits.reduceQuantity 6 = .error "Not enough stock."
    ∧ "Not enough stock." ≠ "Insufficient stock." := by
  decide

/-- Claim C6 (amended): `reduceQuantity(n)` fails with the message
`"Not enough stock."` when `n > stock` — leaving the product record
unchanged, since the throw happens before the mutation — and otherwise
decreases `stock` by exactly `n`, touching no other field. -/
theorem reduceQuantity_spec (p : Product) (n : Int) :
    (p.quantity < n → p.reduceQuantity n = .error "Not enough stock.")
    ∧ (¬ p.quantity < n →
        p.reduceQuantity n = .ok { p with quantity := p.quantity - n }) := by
  constructor
  · intro h
    unfold Product.reduceQuantity
    rw [if_pos h]
  · intro h
    unfold Product.reduceQuantity
    rw [if_neg h]

/-- Claim C6 witness: `reduceQuantity` on `biscuits` (stock 5), with 7
requested (failure) and with 2 requested (stock drops to 3). -/
theorem reduceQuantity_spec_witness :
    biscuits.reduceQuantity 7 = .error "Not enough stock."
    ∧ biscuits.reduceQuantity 2
        = .ok { biscuits with quantity := biscuits.quantity - 2 } :=
  ⟨(reduceQuantity_spec biscuits 7).1 (by decide),
   (reduceQuantity_spec biscuits 2).2 (by decide)⟩

/-- Claim C7: `addToCart(product, quantity)` fails with
`"Insufficient stock."` when `quantity` exceeds the current product
stock — leaving the item list unchanged, since the throw precedes the
`push_back` — and otherwise appends exactly one new `CartItem` at the
end, never coalescing with an existing entry; the store is only read,
never written (the embedding returns no store at all). -/
theorem addToCart_spec (s : Store) (c : Cart) (pid : ProductId) (qty : Int) :
    ((s pid).quantity < qty →
      Cart.addToCart s c pid qty = .error "Insufficient stock.")
    ∧ (¬ (s pid).quantity < qty →
      Cart.addToCart s c pid qty = .ok ⟨c.items ++ [⟨pid, qty⟩]⟩) := by
  constructor
  · intro h
    unfold Cart.addToCart
    rw [if_pos h]
  · intro h
    unfold Cart.addToCart
    rw [if_neg h]

/-- Claim C7 witness: adding 5 units of `cheese1` (stock 3) fails;
adding 2 units to a one-line cart appends a separate second entry. -/
theorem addToCart_spec_witness :
    Cart.addToCart storeCheese ⟨[]⟩ 0 5 = .error "Insufficient stock."
    ∧ Cart.addToCart storeCheese ⟨[⟨0, 1⟩]⟩ 0 2 = .ok ⟨[⟨0, 1⟩, ⟨0, 2⟩]⟩ :=
  ⟨(addToCart_spec storeCheese ⟨[]⟩ 0 5).1 (by decide),
   (addToCart_spec storeCheese ⟨[⟨0, 1⟩]⟩ 0 2).2 (by decide)⟩

/-- Claim C8 (counterexample): `addToCart` does NOT establish
`quantity ≥ 1`: adding zero units is accepted and stores a `CartItem`
with quantity 0. -/
theorem addToCart_zero_quantity_cex :
    Cart.addToCart storeDigital ⟨[]⟩ 0 0 = .ok ⟨[⟨0, 0⟩]⟩
    ∧ ¬ ((1 : Int) ≤ 0) := by
  decide

/-- Claim C8 (amended): every `CartItem` a cart accepts satisfied
`quantity ≤ product.stock` at the moment of add, and is appended at the
end; `addToCart` enforces no lower bound on the quantity (zero and
negative quantities are accepted whenever they do not exceed stock). -/
theorem addToCart_invariant (s : Store) (c : Cart) (pid : ProductId)
    (qty : Int) (c2 : Cart) (h : Cart.addToCart s c pid qty = .ok c2) :
    c2.items = c.items ++ [⟨pid, qty⟩] ∧ qty ≤ (s pid).quantity := by
  unfold Cart.addToCart at h
  split at h
  · exact absurd h (by simp)
  · rename_i hcond
    simp only [Except.ok.injEq] at h
    subst h
    exact ⟨rfl, by omega⟩

/-- Claim C8 witness: the at-add invariant instantiated on adding 2
scratch cards (stock 100) to an empty cart. -/
theorem addToCart_invariant_witness :
    (⟨[⟨0, 2⟩]⟩ : Cart).items = (⟨[]⟩ : Cart).items ++ [⟨0, 2⟩]
    ∧ (2 : Int) ≤ (storeDigital 0).quantity :=
  addToCart_invariant storeDigital ⟨[]⟩ 0 2 ⟨[⟨0, 2⟩]⟩ (by decide)

/-- Claim C9: when the product of no cart item is shippable, the shipping fee
is 0, the manifest is empty, and a successful checkout emits no shipment
notice (`ShippingService::ship` is not invoked) and prints shipping 0 on
the receipt. -/
theorem digital_only_bypasses_shipping (now : Int) (s : Store)
    (cust : Customer) (cart : Cart)
    (h : ∀ it ∈ cart.items, (s it.productId).isShippable = false) :
    cart.calculateShippingFee s = 0
    ∧ cart.getShippableItems s = []
    ∧ (∀ out, (CheckoutService.checkout now s cust cart).result = .ok out →
        out.shipmentNotice = none ∧ out.receipt.shippingFee = 0) := by
  have hview : ∀ it ∈ cart.items, (s it.productId).shippableView = none :=
    fun it hit => view_none_of_not_shippable _ (h it hit)
  have hfee : cart.calculateShippingFee s = 0 := by
    rw [calculateShippingFee_eq]
    apply List.sum_eq_zero
    intro x hx
    simp only [List.mem_map] at hx
    obtain ⟨it, hit, rfl⟩ := hx
    simp [shipContrib, hview it hit]
  have hman : cart.getShippableItems s = [] := by
    rw [getShippableItems_eq]
    apply List.filterMap_eq_nil_iff.mpr
    intro it hit
    simp [manifestEntry, hview it hit]
  refine ⟨hfee, hman, ?_⟩
  intro out hok
  obtain ⟨-, -, -, hrfee, hnotice⟩ := checkout_ok_spec now s cust cart out hok
  constructor
  · rw [hnotice]
    have hpres : ∀ pid, ((reduceAll s cart.items).1 pid).shippableView
        = (s pid).shippableView := by
      intro pid
      obtain ⟨a1, -, a3⟩ := reduceAll_preserve cart.items s pid
      exact shippableView_congr _ _ a1 a3
    have hman2 : cart.getShippableItems (reduceAll s cart.items).1 = [] := by
      rw [getShippableItems_eq]
      apply List.filterMap_eq_nil_iff.mpr
      intro it hit
      simp [manifestEntry, hpres it.productId, hview it hit]
    rw [hman2]
    rfl
  · rw [hrfee, hfee]

/-- Claim C9 witness: the digital-only cart of three scratch cards
checks out successfully with fee 0, empty manifest, and no shipment
notice in the output. -/
theorem digital_only_bypasses_shipping_witness :
    Cart.calculateShippingFee storeDigital cartDigital = 0
    ∧ Cart.getShippableItems storeDigital cartDigital = []
    ∧ outDigital.shipmentNotice = none
    ∧ outDigital.receipt.shippingFee = 0 := by
  have h := digital_only_bypasses_shipping 0 storeDigital richCustomer
    cartDigital (by decide)
  have h2 := h.2.2 outDigital (by with_unfolding_all decide)
  exact ⟨h.1, h.2.1, h2.1, h2.2⟩

/-- Claim C10: `ShippingService::ship` on an empty manifest performs no
check and still prints the header followed immediately by
`"Total package weight 0.0kg"`, with no per-item lines. -/
theorem ship_empty_manifest :
    ShippingService.ship []
      = ["** Shipment notice **", "Total package weight 0.0kg"] := by
  with_unfolding_all decide

end ECommerce
